import Mathlib

set_option maxHeartbeats 1000000
set_option maxRecDepth 4000

/-
Shallow embedding of the RECON / ADIYOGI V2 execution engine and result
pipeline, translated from `src/services/execution/ToolExecutor.js` and
`src/services/results/ResultProcessor.js`.

Modelling conventions:
- JavaScript strings are Lean `String`s; all string operations are
  implemented over `List Char` with structural recursion so that concrete
  values evaluate inside the kernel.  The inputs handled by the pipeline are
  ASCII, so ASCII-only models of `trim`, `toLowerCase` and the character
  classes of the literal regexes coincide with the JavaScript behaviour.
- A JavaScript value that may or may not be a string (the parsed-JSON
  elements flowing through the result pipeline) is modelled by `JsVal`;
  non-string values are opaque and identified by a numeric id (object
  identity, as used by `Set` deduplication).
- Calls into the JavaScript runtime that are not part of the repository
  (the regex engine used by the global `match` calls, `JSON.parse`, and
  the operating system's process spawning / filesystem behaviour) are
  modelled as oracles (`JsOracles`, `RunEnv`) supplied to the embedded
  functions.
- `localeCompare` is modelled as code-point comparison; the pipeline only
  applies it to lowercase ASCII strings.
-/

/-- One step of splitting a character list at a separator, mirroring
JavaScript `String.prototype.split` with a single-character separator
(`"".split(c) = [""]`, a trailing separator yields a trailing `""`). -/
def splitCharList (sep : Char) : List Char → List (List Char)
  | [] => [[]]
  | c :: cs =>
    if c = sep then [] :: splitCharList sep cs
    else
      match splitCharList sep cs with
      | [] => [[c]]
      | h :: t => (c :: h) :: t

/-- JavaScript `s.split(sep)` for a one-character separator. -/
def jsSplit (sep : Char) (s : String) : List String :=
  (splitCharList sep s.toList).map (fun cs => String.mk cs)

/-- ASCII whitespace, the fragment of the JavaScript whitespace class that
occurs in tool output. -/
def jsWhitespaceChar (c : Char) : Bool :=
  c = ' ' || c = '\t' || c = '\n' || c = '\r' || c = '\x0b' || c = '\x0c'

/-- JavaScript `s.trim()`. -/
def jsTrim (s : String) : String :=
  String.mk (((s.toList.dropWhile jsWhitespaceChar).reverse.dropWhile jsWhitespaceChar).reverse)

/-- Whether `needle` occurs as a contiguous sublist of `hay`. -/
def containsSublist : List Char → List Char → Bool
  | [], needle => needle.isEmpty
  | hay@(_ :: tl), needle => needle.isPrefixOf hay || containsSublist tl needle

/-- JavaScript `s.includes(sub)`. -/
def jsIncludes (s sub : String) : Bool :=
  containsSublist s.toList sub.toList

/-- JavaScript `s.startsWith(p)`. -/
def jsStartsWith (s p : String) : Bool :=
  p.toList.isPrefixOf s.toList

/-- JavaScript `s.endsWith(p)`. -/
def jsEndsWith (s p : String) : Bool :=
  p.toList.isSuffixOf s.toList

/-- JavaScript `s.toLowerCase()` (ASCII). -/
def jsToLower (s : String) : String :=
  String.mk (s.toList.map Char.toLower)

/-- The character class `[a-zA-Z0-9]`. -/
def isAsciiAlnum (c : Char) : Bool :=
  ('a' ≤ c && c ≤ 'z') || ('A' ≤ c && c ≤ 'Z') || ('0' ≤ c && c ≤ '9')

/-- The character class `[a-zA-Z0-9.-]`. -/
def domainChar (c : Char) : Bool :=
  isAsciiAlnum c || c = '.' || c = '-'

/-- The anchored regex `/^[a-zA-Z0-9.-]+$/` shared by both source files. -/
def domainCharsTest (s : String) : Bool :=
  !s.toList.isEmpty && s.toList.all domainChar

/-- Lexicographic code-point comparison on character lists. -/
def charListLe : List Char → List Char → Bool
  | [], _ => true
  | _ :: _, [] => false
  | a :: as, b :: bs => if a = b then charListLe as bs else decide (a < b)

/-- Code-point `a <= b` on strings; models both the default
`Array.prototype.sort` string comparison and `localeCompare` on the
lowercase ASCII data this pipeline sorts. -/
def jsStrLe (a b : String) : Bool :=
  charListLe a.toList b.toList

/-- Stable insertion of one element into a sorted list. -/
def insertSorted {α : Type} (le : α → α → Bool) (x : α) : List α → List α
  | [] => [x]
  | y :: ys => if le x y then x :: y :: ys else y :: insertSorted le x ys

/-- Stable insertion sort, modelling `Array.prototype.sort` with a
consistent comparator. -/
def jsSortBy {α : Type} (le : α → α → Bool) : List α → List α
  | [] => []
  | x :: xs => insertSorted le x (jsSortBy le xs)

/-- Core of `[...new Set(results)]`: walk the list keeping the first
occurrence of each element (`Set` iterates in insertion order). -/
def jsSetDedupAux {α : Type} [DecidableEq α] (seen : List α) : List α → List α
  | [] => []
  | x :: xs =>
    if x ∈ seen then jsSetDedupAux seen xs
    else x :: jsSetDedupAux (x :: seen) xs

/-- JavaScript `[...new Set(results)]`. -/
def jsSetDedup {α : Type} [DecidableEq α] (l : List α) : List α :=
  jsSetDedupAux [] l

/-- Decimal digit value. -/
def digitVal (c : Char) : Nat :=
  c.toNat - '0'.toNat

/-- Shared tail of `parseInt(s, 10)`: read the leading digit run; no digit
means `NaN` (`none`). -/
def jsParseIntFrom (sign : Int) (rest : List Char) : Option Int :=
  let ds := rest.takeWhile Char.isDigit
  if ds.isEmpty then none
  else some (sign * Int.ofNat (ds.foldl (fun a c => a * 10 + digitVal c) 0))

/-- JavaScript `parseInt(s, 10)`. -/
def jsParseIntDec (s : String) : Option Int :=
  match s.toList.dropWhile jsWhitespaceChar with
  | '-' :: r => jsParseIntFrom (-1) r
  | '+' :: r => jsParseIntFrom 1 r
  | r => jsParseIntFrom 1 r

/-- `String(parseInt(...))`, where `NaN` prints as `"NaN"`. -/
def jsNumToString : Option Int → String
  | none => "NaN"
  | some n => toString n

/-- JavaScript `s.padStart(3, '0')`. -/
def padStart3 (s : String) : String :=
  if 3 ≤ s.length then s else String.mk (List.replicate (3 - s.length) '0') ++ s

/-- The anchored octet alternation
`(25[0-5]|2[0-4][0-9]|[01]?[0-9][0-9]?)` of the IPv4 regex. -/
def ipOctetOk (s : String) : Bool :=
  match s.toList with
  | [a] => a.isDigit
  | [a, b] => a.isDigit && b.isDigit
  | [a, b, c] =>
      (a = '2' && b = '5' && ('0' ≤ c && c ≤ '5')) ||
      (a = '2' && ('0' ≤ b && b ≤ '4') && c.isDigit) ||
      ((a = '0' || a = '1') && b.isDigit && c.isDigit)
  | _ => false

/-- The anchored IPv4 regex `this.ipRegex` of the result processor. -/
def ipRegexTest (s : String) : Bool :=
  let parts := jsSplit '.' s
  parts.length == 4 && parts.all ipOctetOk

/-- A JavaScript value flowing through the result pipeline: either a string
or an opaque non-string value (identified by id, standing for object
identity). -/
inductive JsVal where
  | str (s : String)
  | other (id : Nat)
deriving DecidableEq

/-- JavaScript string coercion as used by the default sort comparison. -/
def jsValToString : JsVal → String
  | .str s => s
  | .other _ => "[object Object]"

/-- The declared output-type tags of the tool registry and the result
processor's `switch (outputType)`. -/
inductive OutputType where
  | domains
  | urls
  | emails
  | ips
  | json
  | text
deriving DecidableEq

/-- Shape of a successful `JSON.parse` result, as far as
`parseJsonOutput`'s dispatch observes it: an array, something of
`typeof === 'object'` (including `null`), or a primitive. -/
inductive JsonTop where
  | arr (elems : List JsVal)
  | objLike (v : JsVal)
  | prim
deriving DecidableEq

/-- Oracles for the JavaScript runtime services the pipeline calls: the
regex engine behind the two global `match` calls and `JSON.parse`
(`none` models a parse exception). -/
structure JsOracles where
  urlMatches : String → List String
  emailMatches : String → List String
  jsonParse : String → Option JsonTop

namespace ResultProcessor

/-- `parseDomainsOutput` of `src/services/results/ResultProcessor.js`
(lines 133-155). -/
def parseDomainsOutput (output : String) (baseDomain : String) : List String :=
  if output = "" then []
  else
    (((jsSplit '\n' output).map jsTrim).filter (fun line =>
      if line = "" || jsStartsWith line "#" || jsStartsWith line "//" || jsStartsWith line "=" then
        false
      else
        jsIncludes line "." && jsIncludes line baseDomain && !(jsIncludes line " ") &&
          decide (3 < line.length) && decide (line.length < 253) && domainCharsTest line)).map
      jsToLower

/-- `parseUrlsOutput` (lines 160-169); the global regex match is supplied
by the oracle. -/
def parseUrlsOutput (o : JsOracles) (output : String) : List String :=
  if output = "" then []
  else
    ((o.urlMatches output).map jsTrim).filter (fun url =>
      decide (0 < url.length) && decide (url.length < 2048))

/-- `parseEmailsOutput` (lines 174-183). -/
def parseEmailsOutput (o : JsOracles) (output : String) : List String :=
  if output = "" then []
  else
    ((o.emailMatches output).map (fun email => jsTrim (jsToLower email))).filter (fun email =>
      decide (0 < email.length) && decide (email.length < 320))

/-- `parseIPsOutput` (lines 188-199). -/
def parseIPsOutput (output : String) : List String :=
  if output = "" then []
  else
    ((jsSplit '\n' output).map jsTrim).filter (fun line =>
      !(line = "") && ipRegexTest line)

/-- `parseTextOutput` (lines 226-235). -/
def parseTextOutput (output : String) : List String :=
  if output = "" then []
  else ((jsSplit '\n' output).map jsTrim).filter (fun line => decide (0 < line.length))

/-- `parseJsonOutput` (lines 204-221): arrays are returned as-is, other
objects are wrapped in a singleton, primitives give `[]`, and a parse
exception falls back to line-based text parsing. -/
def parseJsonOutput (o : JsOracles) (output : String) : List JsVal :=
  if output = "" then []
  else
    match o.jsonParse output with
    | some (.arr elems) => elems
    | some (.objLike v) => [v]
    | some .prim => []
    | none => (parseTextOutput output).map JsVal.str

/-- `validateResults` (lines 240-278); every branch first checks
`typeof result === 'string'`, so non-string values are always dropped. -/
def validateResults (results : List JsVal) (outputType : OutputType) (domain : String) :
    List JsVal :=
  match outputType with
  | .domains =>
    results.filter (fun v =>
      match v with
      | .str s => jsIncludes s "." && jsIncludes s domain && domainCharsTest s
      | .other _ => false)
  | .urls =>
    results.filter (fun v =>
      match v with
      | .str s => jsStartsWith s "http://" || jsStartsWith s "https://"
      | .other _ => false)
  | .emails =>
    results.filter (fun v =>
      match v with
      | .str s => jsIncludes s "@" && jsIncludes s "."
      | .other _ => false)
  | .ips =>
    results.filter (fun v =>
      match v with
      | .str s => ipRegexTest s
      | .other _ => false)
  | _ =>
    results.filter (fun v =>
      match v with
      | .str s => decide (0 < s.length)
      | .other _ => false)

/-- `deduplicateResults` (lines 283-289): `[...new Set(results)]`. -/
def deduplicateResults (results : List JsVal) : List JsVal :=
  jsSetDedup results

/-- The per-octet key built by the IP comparator:
`a.split('.').map(num => parseInt(num, 10).toString().padStart(3, '0')).join('')`. -/
def ipSortKey (s : String) : String :=
  String.join ((jsSplit '.' s).map (fun oct => padStart3 (jsNumToString (jsParseIntDec oct))))

/-- `sortResults` (lines 294-320): domains by length then lexicographic,
IPs numerically per octet, everything else by default string order. -/
def sortResults (results : List JsVal) (outputType : OutputType) : List JsVal :=
  match outputType with
  | .domains =>
    jsSortBy (fun a b =>
      let sa := jsValToString a
      let sb := jsValToString b
      if sa.length = sb.length then jsStrLe sa sb else decide (sa.length < sb.length)) results
  | .ips =>
    jsSortBy (fun a b => jsStrLe (ipSortKey (jsValToString a)) (ipSortKey (jsValToString b)))
      results
  | _ => jsSortBy (fun a b => jsStrLe (jsValToString a) (jsValToString b)) results

/-- The destructured `options` of `processResults` with the source's
defaults (lines 27-33). -/
structure ProcOptions where
  outputType : OutputType := .domains
  maxResults : Nat := 10000
  deduplicate : Bool := true
  validate : Bool := true
  sort : Bool := true

/-- The record returned by the result processor (timestamps and the
`metadata` sub-object carry wall-clock values and are not modelled). -/
structure ProcResult where
  tool : String
  domain : String
  results : List JsVal
  count : Nat
  error : Option String
  processed : Bool
deriving DecidableEq

/-- `createEmptyResult` (lines 521-534). -/
def createEmptyResult (tool domain : String) : ProcResult :=
  { tool := tool, domain := domain, results := [], count := 0, error := none, processed := true }

/-- `processResults` of the result processor (lines 26-128).  A missing or
non-string `rawOutput` is modelled as `none`; `""` is falsy in the
`!rawOutput` guard and also yields the empty result.  The `catch` branch
(lines 111-127) is unreachable for the typed inputs modelled here: the only
throwing operation, `JSON.parse`, is caught inside `parseJsonOutput`. -/
def processResults (o : JsOracles) (tool : String) (rawOutput : Option String)
    (domain : String) (options : ProcOptions) : ProcResult :=
  match rawOutput with
  | none => createEmptyResult tool domain
  | some raw =>
    if raw = "" then createEmptyResult tool domain
    else
      let results0 : List JsVal :=
        match options.outputType with
        | .domains => (parseDomainsOutput raw domain).map JsVal.str
        | .urls => (parseUrlsOutput o raw).map JsVal.str
        | .emails => (parseEmailsOutput o raw).map JsVal.str
        | .ips => (parseIPsOutput raw).map JsVal.str
        | .json => parseJsonOutput o raw
        | .text => (parseTextOutput raw).map JsVal.str
      let r1 := if options.validate then validateResults results0 options.outputType domain
                else results0
      let r2 := if options.deduplicate then deduplicateResults r1 else r1
      let r3 := if options.sort then sortResults r2 options.outputType else r2
      let r4 := if options.maxResults != 0 && decide (options.maxResults < r3.length) then
                  r3.take options.maxResults
                else r3
      { tool := tool, domain := domain, results := r4, count := r4.length, error := none,
        processed := true }

end ResultProcessor

namespace ToolExecutor

/-- The partial object stored under a tool's `fallback` key.  In the source
registry a fallback only ever carries `command`, `args` and/or
`description`; none carries its own `fallback`, `timeout` or `outputType`
key, so the runtime spread `{...toolConfig, ...toolConfig.fallback}` keeps
the primary's values for those fields. -/
structure FallbackSpec where
  command : Option String := none
  args : Option (List String) := none
  description : Option String := none
deriving DecidableEq

/-- One entry of the static tool registry in `getToolConfiguration`
(`src/services/execution/ToolExecutor.js`, lines 272-450). -/
structure ToolSpec where
  command : String
  args : List String
  category : String
  timeout : Nat
  outputType : OutputType
  fallback : Option FallbackSpec := none
deriving DecidableEq

/-- The registry lookup of `getToolConfiguration`: the `toolConfigs` object
literal keyed by tool name; an unknown name throws
`Unknown tool: ...` (modelled by `none`, converted to the error message at
the call sites). -/
def toolConfigs (tool : String) : Option ToolSpec :=
  if tool = "subfinder" then
    some { command := "subfinder",
           args := ["-d", "{domain}", "-all", "\x27-r", "-o", "{outputFile}"],
           category := "subdomain", timeout := 180000, outputType := .domains,
           fallback := some { description := some "Not working" } }
  else if tool = "assetfinder" then
    some { command := "assetfinder", args := ["--subs-only", "{domain}"],
           category := "subdomain", timeout := 120000, outputType := .domains }
  else if tool = "amass" then
    some { command := "amass", args := ["enum", "-passive", "-d", "{domain}", "-o", "{outputFile}"],
           category := "subdomain", timeout := 300000, outputType := .domains }
  else if tool = "findomain" then
    some { command := "findomain", args := ["-t", "{domain}", "-o"],
           category := "subdomain", timeout := 120000, outputType := .domains }
  else if tool = "sublist3r" then
    some { command := "sublist3r", args := ["-d", "{domain}", "-o", "{outputFile}"],
           category := "subdomain", timeout := 180000, outputType := .domains }
  else if tool = "theharvester" then
    some { command := "theHarvester", args := ["-d", "{domain}", "-b", "all", "-f", "{outputFile}"],
           category := "subdomain", timeout := 240000, outputType := .domains }
  else if tool = "crtsh" then
    some { command := "curl", args := ["-s", "https://crt.sh/?q=%.{domain}&output=json"],
           category := "subdomain", timeout := 60000, outputType := .domains }
  else if tool = "gobuster" then
    some { command := "gobuster",
           args := ["dns", "-d", "{domain}", "-w", "/usr/share/wordlists/subdomains.txt", "-o",
                    "{outputFile}"],
           category := "active", timeout := 300000, outputType := .domains }
  else if tool = "ffuf" then
    some { command := "ffuf",
           args := ["-w", "/usr/share/wordlists/subdomains.txt", "-u", "http://FUZZ.{domain}",
                    "-o", "{outputFile}"],
           category := "active", timeout := 240000, outputType := .domains }
  else if tool = "dig" then
    some { command := "dig", args := ["{domain}", "ANY", "+noall", "+answer"],
           category := "dns", timeout := 30000, outputType := .text }
  else if tool = "whois" then
    some { command := "whois", args := ["{domain}"],
           category := "dns", timeout := 30000, outputType := .text }
  else if tool = "nslookup" then
    some { command := "nslookup", args := ["{domain}"],
           category := "dns", timeout := 30000, outputType := .text,
           fallback := some {
             command := some "sh",
             args := some ["-c",
               "dig +short {domain} A > {outputFile} && dig +short {domain} AAAA >> {outputFile} && dig +short {domain} MX >> {outputFile} && dig +short {domain} NS >> {outputFile} && dig +short {domain} TXT >> {outputFile}"] } }
  else if tool = "host" then
    some { command := "host", args := ["{domain}"],
           category := "dns", timeout := 30000, outputType := .text,
           fallback := some {
             command := some "sh",
             args := some ["-c",
               "dig +short {domain} A | while read ip; do echo \"{domain} has address $ip\"; done > {outputFile} && dig +short {domain} MX | while read mx; do echo \"{domain} mail is handled by $mx\"; done >> {outputFile}"] } }
  else if tool = "linkfinder" then
    some { command := "linkfinder", args := ["-i", "https://{domain}", "-o", "cli"],
           category := "javascript", timeout := 120000, outputType := .text,
           fallback := some {
             command := some "sh",
             args := some ["-c",
               "curl -s \"https://{domain}\" | grep -oE \x27https?://[^\"\\s<>]+\x27 | sort -u > {outputFile} && curl -s \"https://{domain}/robots.txt\" | grep -E \x27^(Allow|Disallow):\x27 | cut -d\x27:\x27 -f2 | sed \x27s/^ *//\x27 >> {outputFile} && curl -s \"https://{domain}/sitemap.xml\" | grep -oE \x27<loc>[^<]+</loc>\x27 | sed \x27s/<[^>]*>//g\x27 >> {outputFile}"] } }
  else if tool = "jsparser" then
    some { command := "jsparser", args := ["-u", "https://{domain}"],
           category := "javascript", timeout := 90000, outputType := .text,
           fallback := some {
             command := some "sh",
             args := some ["-c",
               "curl -s \"https://{domain}\" | grep -oE \x27src=\"[^\"]*\\.js[^\"]*\"\x27 | cut -d\x27\"\x27 -f2 > {outputFile} && curl -s \"https://{domain}\" | grep -oE \x27href=\"[^\"]*\\.js[^\"]*\"\x27 | cut -d\x27\"\x27 -f2 >> {outputFile} && curl -s \"https://{domain}\" | grep -oE \x27https?://[^\"\\s<>]+\\.js\x27 >> {outputFile}"] } }
  else if tool = "shodan" then
    some { command := "shodan", args := ["host", "{domain}"],
           category := "osint", timeout := 60000, outputType := .text,
           fallback := some {
             command := some "sh",
             args := some ["-c",
               "curl -s \"https://api.shodan.io/shodan/host/search?key=demo&query={domain}\" | grep -oE \x27\"ip_str\":\"[^\"]*\"\x27 | cut -d\x27\"\x27 -f4 > {outputFile} && dig +short {domain} A >> {outputFile} && whois {domain} | grep -E \x27^(Organization|OrgName|org-name):\x27 >> {outputFile}"] } }
  else if tool = "spiderfoot" then
    some { command := "spiderfoot", args := ["-s", "{domain}", "-t", "SUBDOMAIN"],
           category := "osint", timeout := 180000, outputType := .text,
           fallback := some {
             command := some "sh",
             args := some ["-c",
               "dig +short {domain} NS > {outputFile} && dig +short {domain} MX >> {outputFile} && dig +short {domain} A >> {outputFile} && whois {domain} | head -20 >> {outputFile} && curl -s \"https://api.hackertarget.com/reverseiplookup/?q={domain}\" >> {outputFile}"] } }
  else none

/-- A registry entry with a junk default for unknown names; used only to
state concrete theorems about known tools. -/
def specOf (tool : String) : ToolSpec :=
  (toolConfigs tool).getD
    { command := "", args := [], category := "", timeout := 0, outputType := .text }

/-- The runtime spread `{...toolConfig, ...toolConfig.fallback}` performed
before a fallback attempt: keys present on the fallback object override the
primary's. -/
def mergeFallback (spec : ToolSpec) (fb : FallbackSpec) : ToolSpec :=
  { spec with
    command := fb.command.getD spec.command
    args := fb.args.getD spec.args }

/-- Replace every occurrence of `pat` in the haystack, continuing after the
replacement text (a replacement is not rescanned), as `new RegExp(p, 'g')`
replacement does for the literal placeholder patterns.  The fuel is the
haystack length, enough because every step consumes at least one character
of the haystack when the pattern is non-empty. -/
def replaceAllAux (pat repl : List Char) : Nat → List Char → List Char
  | 0, hay => hay
  | _ + 1, [] => []
  | fuel + 1, hay@(c :: tl) =>
    if !pat.isEmpty && pat.isPrefixOf hay then
      repl ++ replaceAllAux pat repl fuel (hay.drop pat.length)
    else c :: replaceAllAux pat repl fuel tl

/-- JavaScript `s.replace(new RegExp(pat, 'g'), repl)` for a literal
pattern. -/
def jsReplaceAll (s pat repl : String) : String :=
  String.mk (replaceAllAux pat.toList repl.toList s.toList.length s.toList)

/-- `processCommandArgs` (lines 577-585): substitute the three placeholders
in each argument, iterating the replacement object in insertion order
(`domain`, `outputFile`, `executionId`). -/
def processCommandArgs (args : List String) (domain outputFile executionId : String) :
    List String :=
  args.map (fun arg =>
    jsReplaceAll (jsReplaceAll (jsReplaceAll arg "{domain}" domain) "{outputFile}" outputFile)
      "{executionId}" executionId)

/-- What the external world does with one spawn attempt: whether the spawn
emits an `error` event (process never started), whether the timeout fires
before the `close` event, and otherwise the exit code/signal, the captured
streams, and the state of the declared output file at the moment the
attempt ends (`none` = never created). -/
structure AttemptBehavior where
  spawnFails : Bool := false
  spawnErrorMsg : String := ""
  timesOut : Bool := false
  exitCode : Int := 0
  exitSignal : Option String := none
  stdout : String := ""
  stderr : String := ""
  fileContents : Option String := none
deriving DecidableEq

/-- The process-spawning oracle: behaviour of the n-th spawn attempt of one
`runTool` call (0 = primary, 1 = fallback). -/
abbrev RunEnv := Nat → AttemptBehavior

/-- The object `runTool`'s promise resolves with on the `close` handler
(lines 528-552). -/
structure CloseResult where
  code : Int
  signal : Option String
  stdout : String
  stderr : String
  output : String
  outputFile : String
deriving DecidableEq

/-- Decidable equality for settled promises. -/
instance {e a : Type} [DecidableEq e] [DecidableEq a] : DecidableEq (Except e a) := fun x y =>
  match x, y with
  | .ok v, .ok w =>
    if h : v = w then isTrue (by rw [h]) else isFalse (fun he => by cases he; exact h rfl)
  | .error v, .error w =>
    if h : v = w then isTrue (by rw [h]) else isFalse (fun he => by cases he; exact h rfl)
  | .ok _, .error _ => isFalse (fun he => by cases he)
  | .error _, .ok _ => isFalse (fun he => by cases he)

/-- Outcome of a `runTool` call: the settled promise, the list of
`(command, processed args)` spawn attempts made, and the state of the
declared output file afterwards. -/
structure RunOutcome where
  result : Except String CloseResult
  attempts : List (String × List String)
  fileAfter : Option String
deriving DecidableEq

/-- One spawn attempt without fallback handling: an `error` event rejects
with the spawn error; a timeout rejects with the timeout message (line 514)
leaving the output file as the process left it; otherwise the `close`
handler resolves, preferring the output file's contents when the
`fs.readFile` succeeds and falling back to the captured stdout when it does
not (lines 531-548). -/
def attemptOutcome (b : AttemptBehavior) (spec : ToolSpec) (args : List String)
    (outFile : String) : RunOutcome :=
  if b.spawnFails then
    { result := .error b.spawnErrorMsg, attempts := [(spec.command, args)], fileAfter := none }
  else if b.timesOut then
    { result := .error ("Tool execution timeout after " ++ toString spec.timeout ++ "ms"),
      attempts := [(spec.command, args)], fileAfter := b.fileContents }
  else
    { result := .ok { code := b.exitCode, signal := b.exitSignal, stdout := b.stdout,
                      stderr := b.stderr, output := b.fileContents.getD b.stdout,
                      outputFile := outFile },
      attempts := [(spec.command, args)], fileAfter := b.fileContents }

/-- `runTool` re-entered after `context.fallbackAttempted` has been set
(lines 559-564): the merged spec is run once and the
`!context.fallbackAttempted` guard forbids any further fallback. -/
def runToolFallbackAttempt (env : RunEnv) (domain outFile executionId : String)
    (spec : ToolSpec) : RunOutcome :=
  attemptOutcome (env 1) spec (processCommandArgs spec.args domain outFile executionId) outFile

/-- `runTool` (lines 476-575) on a fresh context
(`context.fallbackAttempted` unset): if the primary spawn fails and a
fallback spec exists, retry exactly once with the spread-merged spec;
otherwise settle per `attemptOutcome`.  The recursion of the source
reaches depth at most 2 because the context flag is set before the
re-entry, so it is unrolled into `runToolFallbackAttempt` here. -/
def runTool (env : RunEnv) (domain outFile executionId : String) (spec : ToolSpec) :
    RunOutcome :=
  let args := processCommandArgs spec.args domain outFile executionId
  match (env 0).spawnFails, spec.fallback with
  | true, some fb =>
    let r := runToolFallbackAttempt env domain outFile executionId (mergeFallback spec fb)
    { r with attempts := (spec.command, args) :: r.attempts }
  | _, _ => attemptOutcome (env 0) spec args outFile

/-- The character class `[;&|`$(){}[\]]` of the shell-injection pattern in
`validateInputs` (backtick and braces written via their code points). -/
def maliciousChars : List Char :=
  [';', '&', '|', Char.ofNat 96, '$', '(', ')', Char.ofNat 123, Char.ofNat 125, '[', ']']

/-- Whether any of the three malicious patterns of `validateInputs`
matches: shell metacharacters, `..`, or a NUL byte. -/
def maliciousInput (s : String) : Bool :=
  s.toList.any (fun c => maliciousChars.contains c) || jsIncludes s ".." ||
    s.toList.contains (Char.ofNat 0)

/-- One label of the domain-format regex:
`[a-zA-Z0-9](?:[a-zA-Z0-9-]{0,61}[a-zA-Z0-9])?` — length 1 to 63,
alphanumeric at both ends, hyphens allowed inside. -/
def domainLabelOk (cs : List Char) : Bool :=
  match cs.head?, cs.getLast? with
  | some h, some l =>
    isAsciiAlnum h && isAsciiAlnum l && cs.all (fun c => isAsciiAlnum c || c = '-') &&
      decide (cs.length ≤ 63)
  | _, _ => false

/-- The anchored domain regex of `validateInputs` (line 253): a dot-joined
non-empty sequence of valid labels. -/
def domainFormatOk (domain : String) : Bool :=
  (splitCharList '.' domain.toList).all domainLabelOk

/-- `validateInputs` (lines 243-270): returns the thrown error message, or
`none` when the inputs pass.  The `typeof` checks cannot fail for typed
string inputs; the falsy check catches `""`. -/
def validateInputs (tool domain : String) : Option String :=
  if tool = "" then some "Invalid tool name"
  else if domain = "" then some "Invalid domain"
  else if !domainFormatOk domain then some "Invalid domain format"
  else if maliciousInput domain || maliciousInput tool then
    some "Potentially malicious input detected"
  else none

/-- `parseTextOutput` of the executor (lines 694-703), identical to the
result processor's. -/
def parseTextOutput (output : String) : List String :=
  if output = "" then []
  else ((jsSplit '\n' output).map jsTrim).filter (fun line => decide (0 < line.length))

/-- The bracket class `[\[\](){}]` removed by the first cleanup replace. -/
def bracketChars : List Char :=
  ['[', ']', '(', ')', Char.ofNat 123, Char.ofNat 125]

/-- The cleanup chain applied to an extracted domain (lines 668 and 688):
remove brackets, strip the leading run of non-alphanumerics, strip the
trailing run of characters outside `[a-zA-Z0-9.-]`. -/
def cleanDomain (s : String) : String :=
  let cs := s.toList.filter (fun c => !bracketChars.contains c)
  let cs := cs.dropWhile (fun c => !isAsciiAlnum c)
  let cs := (cs.reverse.dropWhile (fun c => !domainChar c)).reverse
  String.mk cs

/-- The domain-extraction steps shared by the filter (lines 657-668) and
the map (lines 678-688) of the executor's `parseDomainsOutput`: take the
first tab field, then, if the line has a space, the first space-separated
part containing a dot and the base domain (or the first part), then clean.
Both `includes` tests are against the original line, as in the source. -/
def extractDomain (line baseDomain : String) : String :=
  let d1 := if jsIncludes line "\t" then (jsSplit '\t' line).headD "" else line
  let d2 :=
    if jsIncludes line " " then
      (let parts := jsSplit ' ' line
       ((parts.find? (fun part => jsIncludes part "." && jsIncludes part baseDomain)).getD
         (parts.headD "")))
    else d1
  cleanDomain d2

/-- The noise-token test of the executor's `parseDomainsOutput` filter
(lines 652-654). -/
def lineIsNoise (line : String) : Bool :=
  jsIncludes line "Found" || jsIncludes line "Error" || jsIncludes line "timeout" ||
    jsIncludes line "connection" || jsIncludes line "failed" || jsIncludes line "not found"

/-- The filter predicate of the executor's `parseDomainsOutput`
(lines 646-677). -/
def lineKeep (line baseDomain : String) : Bool :=
  if line = "" || jsStartsWith line "#" || jsStartsWith line "//" || jsStartsWith line ";" then
    false
  else if lineIsNoise line then false
  else
    let domain := extractDomain line baseDomain
    jsIncludes domain "." &&
      (jsIncludes domain baseDomain || jsEndsWith domain ("." ++ baseDomain)) &&
      decide (3 < domain.length) && domainCharsTest domain && !jsStartsWith domain "." &&
      !jsEndsWith domain "."

/-- `parseDomainsOutput` of the executor (lines 638-692): trim, filter,
extract, keep first occurrences (`arr.indexOf(domain) === index`), default
sort. -/
def parseDomainsOutput (output baseDomain : String) : List String :=
  if output = "" then []
  else
    let lines := (jsSplit '\n' output).map jsTrim
    jsSortBy jsStrLe
      (jsSetDedup ((lines.filter (fun line => lineKeep line baseDomain)).map
        (fun line => extractDomain line baseDomain)))

/-- The part of `processResults`'s return value that the claims observe
(`metadata` carries wall-clock times and is not modelled). -/
structure ProcessedResult where
  results : List String
  count : Nat
  rawOutput : String
  error : Option String
deriving DecidableEq

/-- `processResults` of the executor (lines 587-636).  The boolean records
whether the `fs.unlink` cleanup was reached: the `catch` path (taken here
exactly when the registry lookup inside the `try` throws) returns the
zero-count error record without unlinking. -/
def processResults (tool : String) (output : String) (domain : String) :
    ProcessedResult × Bool :=
  match toolConfigs tool with
  | none =>
    ({ results := [], count := 0, rawOutput := output,
       error := some ("Unknown tool: " ++ tool) }, false)
  | some toolConfig =>
    let parsedResults :=
      if toolConfig.outputType = .domains then parseDomainsOutput output domain
      else parseTextOutput output
    ({ results := parsedResults, count := parsedResults.length, rawOutput := output,
       error := none }, true)

/-- The fields of the object `executeSingleTool` returns that the claims
observe.  `count` is an `Option` because the failure path (lines 219-227)
builds its object without a `count` key, so the field is `undefined`
there. -/
structure ToolResult where
  success : Bool
  tool : String
  domain : String
  results : List String
  count : Option Nat
  rawOutput : Option String
  error : Option String
deriving DecidableEq

/-- The object built by the `catch` branch of `executeSingleTool`
(lines 219-227): no `count`, no `rawOutput`. -/
def failedToolResult (tool domain msg : String) : ToolResult :=
  { success := false, tool := tool, domain := domain, results := [], count := none,
    rawOutput := none, error := some msg }

/-- Result of one `executeSingleTool` call together with the final state of
its declared output file (`none` = absent/deleted). -/
structure SingleOutcome where
  res : ToolResult
  fileAfter : Option String
deriving DecidableEq

/-- `executeSingleTool` (lines 179-235) for one tool: registry lookup, then
input validation (in that order), then `runTool`, then the executor's
`processResults`; every thrown error is caught and becomes a failed
`ToolResult`, so the promise always fulfills.  The concurrency-slot
bookkeeping around it is modelled separately as the slot transition system
below; execution ids and timers are wall-clock values and are omitted. -/
def executeSingleTool (env : RunEnv) (tool domain outFile executionId : String) :
    SingleOutcome :=
  match toolConfigs tool with
  | none => { res := failedToolResult tool domain ("Unknown tool: " ++ tool), fileAfter := none }
  | some toolConfig =>
    match validateInputs tool domain with
    | some msg => { res := failedToolResult tool domain msg, fileAfter := none }
    | none =>
      let run := runTool env domain outFile executionId toolConfig
      match run.result with
      | .error msg => { res := failedToolResult tool domain msg, fileAfter := run.fileAfter }
      | .ok closeRes =>
        let pr := processResults tool closeRes.output domain
        { res := { success := true, tool := tool, domain := domain, results := pr.1.results,
                   count := some pr.1.count, rawOutput := some pr.1.rawOutput,
                   error := pr.1.error },
          fileAfter := if pr.2 then none else run.fileAfter }

/-- Per-call environment: the spawn oracle, output-file name and execution
id assigned to each tool of one `executeTools` call. -/
structure WorldEnv where
  runEnv : String → RunEnv
  outFile : String → String
  execId : String → String

/-- The batching loop of `createConcurrentBatches` (lines 168-177):
`slice(i, i + batchSize)` for `i = 0, batchSize, ...`, written with the
list length as fuel (each step consumes at least one element when
`batchSize` is positive; a zero `batchSize` makes the source loop spin
forever and is excluded by the positivity hypotheses of the theorems). -/
def chunkToolsAux (batchSize : Nat) : Nat → List String → List (List String)
  | 0, _ => []
  | _ + 1, [] => []
  | fuel + 1, tools => tools.take batchSize :: chunkToolsAux batchSize fuel (tools.drop batchSize)

/-- `createConcurrentBatches` with `batchSize = min(maxConcurrent,
tools.length)`. -/
def createConcurrentBatches (maxConcurrent : Nat) (tools : List String) : List (List String) :=
  chunkToolsAux (min maxConcurrent tools.length) tools.length tools

/-- Concatenation of the per-batch result lists, in batch order. -/
def flatListMap {α β : Type} (f : α → List β) : List α → List β
  | [] => []
  | x :: xs => f x ++ flatListMap f xs

/-- `executeMultipleTools` (lines 138-166): for each batch in order,
`Promise.allSettled` over the batch preserves the batch's index order, and
`executeSingleTool` always fulfills (its whole body is inside
`try/catch/finally`), so the `rejected` push (lines 152-161) is
unreachable and every batch contributes exactly its tools' own results. -/
def executeMultipleTools (w : WorldEnv) (maxConcurrent : Nat) (tools : List String)
    (domain : String) : List ToolResult :=
  flatListMap
    (fun batch =>
      batch.map (fun tool =>
        (executeSingleTool (w.runEnv tool) tool domain (w.outFile tool) (w.execId tool)).res))
    (createConcurrentBatches maxConcurrent tools)

/-- The fields of the object `executeTools` returns that the claims
observe. -/
structure ExecutionResult where
  success : Bool
  results : List ToolResult
  error : Option String
  totalResults : Nat
deriving DecidableEq

/-- `executeTools` (lines 88-136).  The `catch` branch (success `false`)
fires only when `executeMultipleTools` itself throws, which cannot happen
for a list-typed `tools` argument, so the coordinator always reports
`success: true`. -/
def executeTools (w : WorldEnv) (maxConcurrent : Nat) (tools : List String) (domain : String) :
    ExecutionResult :=
  let results := executeMultipleTools w maxConcurrent tools domain
  { success := true, results := results, error := none,
    totalResults := (results.map (fun r => r.results.length)).foldl (· + ·) 0 }

/-- Where one `executeSingleTool` caller stands in the slot protocol of
lines 184-188 and 228-234: `atCheck` = about to evaluate the `while`
condition of `waitForExecutionSlot`; `passedCheck` = the condition
evaluated false and the async function returned, but the caller's
continuation (`this.concurrentExecutions++`) has not run yet — a real
interleaving point, because resuming an `await` goes through the microtask
queue; `running` = incremented and executing its process; `done` =
decremented in the `finally` block. -/
inductive SlotPhase where
  | atCheck
  | passedCheck
  | running
  | done
deriving DecidableEq

/-- Shared state of the slot protocol: the `concurrentExecutions` counter
and the phase of each concurrent caller. -/
structure SlotState where
  counter : Nat
  phases : List SlotPhase
deriving DecidableEq

/-- Number of callers currently holding a running process. -/
def runningCount (s : SlotState) : Nat :=
  (s.phases.filter (fun p => decide (p = SlotPhase.running))).length

/-- Interleaved steps of the slot protocol: a caller may pass the check
only while the counter is below the limit, but the increment is a separate
later step. -/
inductive SlotStep (maxConcurrent : Nat) : SlotState → SlotState → Prop where
  | passCheck (s : SlotState) (i : Nat) (h : s.phases.get? i = some .atCheck)
      (hlt : s.counter < maxConcurrent) :
      SlotStep maxConcurrent s { counter := s.counter, phases := s.phases.set i .passedCheck }
  | increment (s : SlotState) (i : Nat) (h : s.phases.get? i = some .passedCheck) :
      SlotStep maxConcurrent s { counter := s.counter + 1, phases := s.phases.set i .running }
  | finish (s : SlotState) (i : Nat) (h : s.phases.get? i = some .running) :
      SlotStep maxConcurrent s { counter := s.counter - 1, phases := s.phases.set i .done }

/-- Reflexive-transitive closure of `SlotStep`. -/
inductive SlotReachable (maxConcurrent : Nat) (init : SlotState) : SlotState → Prop where
  | refl : SlotReachable maxConcurrent init init
  | step {s t : SlotState} (hr : SlotReachable maxConcurrent init s)
      (hs : SlotStep maxConcurrent s t) : SlotReachable maxConcurrent init t

end ToolExecutor

/-- Stated from the claim's words, for comparison with
`ResultProcessor.deduplicateResults`: the subsequence of first occurrences
of the input, in original input order. -/
def firstOccurrenceSubseq {α : Type} [DecidableEq α] (l : List α) : List α :=
  match l with
  | [] => []
  | x :: xs => x :: firstOccurrenceSubseq (xs.filter (fun y => decide (y ≠ x)))
termination_by l.length
decreasing_by
  simp only [List.length_cons]
  exact Nat.lt_succ_of_le (List.length_filter_le _ _)

/-- Oracle for scenarios in which the pipeline makes no regex-engine call
and every `JSON.parse` call throws. -/
def oracleNone : JsOracles :=
  { urlMatches := fun _ => [], emailMatches := fun _ => [], jsonParse := fun _ => none }

/-- The raw output of the spec's Scenario B. -/
def scenarioBRaw : String :=
  "www.example.com\nmail.example.com\n#comment\ninvalid..example.com"

/-- A spawn oracle for an uneventful run: process starts, exits 0 before
its timeout, writes nothing. -/
def envDefault : ToolExecutor.RunEnv := fun _ => {}

/-- A spawn oracle for a run whose process hits the timeout after having
written a partial output file. -/
def envTimeoutLeft : ToolExecutor.RunEnv :=
  fun _ => { timesOut := true, fileContents := some "partial results", stdout := "partial stdout" }

/-- A spawn oracle for a clean exit that produced an existing but empty
output file alongside captured stdout. -/
def envEmptyFile : ToolExecutor.RunEnv :=
  fun _ => { stdout := "hello stdout", fileContents := some "" }

/-- A spawn oracle in which the primary and the fallback spawn both fail,
with distinct error messages. -/
def envBothSpawnFail : ToolExecutor.RunEnv :=
  fun i =>
    if i = 0 then { spawnFails := true, spawnErrorMsg := "primary ENOENT" }
    else { spawnFails := true, spawnErrorMsg := "fallback ENOENT" }

/-- A call environment in which every tool's process runs uneventfully. -/
def wDefault : ToolExecutor.WorldEnv :=
  { runEnv := fun _ => envDefault, outFile := fun t => t ++ "_out.txt",
    execId := fun _ => "exec1" }

/-- A call environment in which every tool's spawn fails. -/
def wSpawnFail : ToolExecutor.WorldEnv :=
  { runEnv := fun _ => fun _ => { spawnFails := true, spawnErrorMsg := "spawn ENOENT" },
    outFile := fun t => t ++ "_out.txt", execId := fun _ => "exec1" }

theorem jsSetDedupAux_sublist {α : Type} [DecidableEq α] (seen : List α) (l : List α) :
    List.Sublist (jsSetDedupAux seen l) l := by
  induction l generalizing seen with
  | nil => simp [jsSetDedupAux]
  | cons x xs ih =>
    by_cases h : x ∈ seen
    · simp only [jsSetDedupAux, if_pos h]
      exact List.Sublist.cons x (ih seen)
    · simp only [jsSetDedupAux, if_neg h]
      exact List.Sublist.cons₂ x (ih (x :: seen))

theorem mem_jsSetDedupAux {α : Type} [DecidableEq α] (l : List α) (seen : List α) (a : α) :
    a ∈ jsSetDedupAux seen l ↔ a ∈ l ∧ a ∉ seen := by
  induction l generalizing seen with
  | nil => simp [jsSetDedupAux]
  | cons x xs ih =>
    by_cases h : x ∈ seen
    · simp only [jsSetDedupAux, if_pos h, ih, List.mem_cons]
      constructor
      · exact fun hm => ⟨Or.inr hm.1, hm.2⟩
      · rintro ⟨rfl | hm, hs⟩
        · exact absurd h hs
        · exact ⟨hm, hs⟩
    · simp only [jsSetDedupAux, if_neg h, List.mem_cons, ih]
      constructor
      · rintro (rfl | ⟨hm, hs⟩)
        · exact ⟨Or.inl rfl, h⟩
        · exact ⟨Or.inr hm, fun hc => hs (Or.inr hc)⟩
      · rintro ⟨rfl | hm, hs⟩
        · exact Or.inl rfl
        · by_cases hax : a = x
          · exact Or.inl hax
          · refine Or.inr ⟨hm, fun hc => ?_⟩
            rcases hc with h1 | h2
            · exact hax h1
            · exact hs h2

theorem nodup_jsSetDedupAux {α : Type} [DecidableEq α] (l seen : List α) :
    (jsSetDedupAux seen l).Nodup := by
  induction l generalizing seen with
  | nil => simp [jsSetDedupAux]
  | cons x xs ih =>
    by_cases h : x ∈ seen
    · simpa [jsSetDedupAux, if_pos h] using ih seen
    · simp only [jsSetDedupAux, if_neg h]
      refine List.nodup_cons.mpr ⟨?_, ih (x :: seen)⟩
      intro hmem
      exact ((mem_jsSetDedupAux xs (x :: seen) x).mp hmem).2 (List.mem_cons_self x seen)

theorem jsSetDedupAux_id_of_nodup {α : Type} [DecidableEq α] (l : List α) (seen : List α)
    (h1 : l.Nodup) (h2 : ∀ a ∈ l, a ∉ seen) : jsSetDedupAux seen l = l := by
  induction l generalizing seen with
  | nil => rfl
  | cons x xs ih =>
    have hx : x ∉ seen := h2 x (List.mem_cons_self x xs)
    simp only [jsSetDedupAux, if_neg hx]
    congr 1
    refine ih (x :: seen) (List.Nodup.of_cons h1) ?_
    intro a ha hc
    rcases List.mem_cons.mp hc with rfl | hs
    · exact (List.nodup_cons.mp h1).1 ha
    · exact h2 a (List.mem_cons_of_mem x ha) hs

theorem filter_filter_notMem {α : Type} [DecidableEq α] (x : α) (seen : List α)
    (xs : List α) :
    (xs.filter (fun a => decide (a ∉ seen))).filter (fun a => decide (a ≠ x)) =
      xs.filter (fun a => decide (a ∉ x :: seen)) := by
  rw [List.filter_filter]
  refine List.filter_congr ?_
  intro a _
  by_cases h1 : a ∈ seen <;> by_cases h2 : a = x <;> simp [h1, h2, List.mem_cons]

theorem jsSetDedupAux_eq_firstOcc {α : Type} [DecidableEq α] (l : List α) (seen : List α) :
    jsSetDedupAux seen l = firstOccurrenceSubseq (l.filter (fun a => decide (a ∉ seen))) := by
  induction l generalizing seen with
  | nil => simp [jsSetDedupAux, firstOccurrenceSubseq]
  | cons x xs ih =>
    by_cases h : x ∈ seen
    · have hd : decide (x ∉ seen) = false := by simp [h]
      simp only [jsSetDedupAux, if_pos h, List.filter_cons, hd]
      simp only [Bool.false_eq_true, if_false]
      exact ih seen
    · have hd : decide (x ∉ seen) = true := by simp [h]
      simp only [jsSetDedupAux, if_neg h, List.filter_cons, hd, if_true]
      rw [firstOccurrenceSubseq]
      congr 1
      rw [filter_filter_notMem]
      exact ih (x :: seen)

/-- Claim C10: `deduplicateResults` returns the subsequence of first
occurrences of its input in original order (in particular a sublist of the
input), and is therefore idempotent. -/
theorem c10_dedup_first_occurrence (l : List JsVal) :
    ResultProcessor.deduplicateResults l = firstOccurrenceSubseq l ∧
    List.Sublist (ResultProcessor.deduplicateResults l) l ∧
    ResultProcessor.deduplicateResults (ResultProcessor.deduplicateResults l) =
      ResultProcessor.deduplicateResults l := by
  refine ⟨?_, jsSetDedupAux_sublist [] l, ?_⟩
  · unfold ResultProcessor.deduplicateResults jsSetDedup
    rw [jsSetDedupAux_eq_firstOcc]
    congr 1
    simp
  · unfold ResultProcessor.deduplicateResults jsSetDedup
    exact jsSetDedupAux_id_of_nodup _ [] (nodup_jsSetDedupAux l []) (by simp)

/-- Claim C1 (code bug): in the slot protocol of `waitForExecutionSlot` and
`executeSingleTool`, two concurrent callers can both observe
`concurrentExecutions = 0 < 1 = maxConcurrent` before either of them
resumes to run `this.concurrentExecutions++`, so a state with two running
processes is reachable under limit 1 — the claimed bound is violated. -/
theorem c1_slot_race_reachable :
    ToolExecutor.SlotReachable 1 { counter := 0, phases := [.atCheck, .atCheck] }
        { counter := 2, phases := [.running, .running] } ∧
      1 < ToolExecutor.runningCount { counter := 2, phases := [.running, .running] } := by
  constructor
  · have h1 : ToolExecutor.SlotStep 1 ⟨0, [.atCheck, .atCheck]⟩ ⟨0, [.passedCheck, .atCheck]⟩ :=
      ToolExecutor.SlotStep.passCheck ⟨0, [.atCheck, .atCheck]⟩ 0 rfl (by decide)
    have h2 : ToolExecutor.SlotStep 1 ⟨0, [.passedCheck, .atCheck]⟩
        ⟨0, [.passedCheck, .passedCheck]⟩ :=
      ToolExecutor.SlotStep.passCheck ⟨0, [.passedCheck, .atCheck]⟩ 1 rfl (by decide)
    have h3 : ToolExecutor.SlotStep 1 ⟨0, [.passedCheck, .passedCheck]⟩
        ⟨1, [.running, .passedCheck]⟩ :=
      ToolExecutor.SlotStep.increment ⟨0, [.passedCheck, .passedCheck]⟩ 0 rfl
    have h4 : ToolExecutor.SlotStep 1 ⟨1, [.running, .passedCheck]⟩
        ⟨2, [.running, .running]⟩ :=
      ToolExecutor.SlotStep.increment ⟨1, [.running, .passedCheck]⟩ 1 rfl
    exact ((((ToolExecutor.SlotReachable.refl).step h1).step h2).step h3).step h4
  · decide

/-- Claim C4 counterexample: the per-tool failure path of
`executeSingleTool` (here: unknown tool name) returns a `ToolResult`
without any `count` field, so `count` does not equal the length of its
(empty) results list there. -/
theorem c4_counterexample :
    ¬ (((ToolExecutor.executeSingleTool envDefault "nosuchtool" "example.com" "f_out.txt"
          "exec1").res).count =
        some (((ToolExecutor.executeSingleTool envDefault "nosuchtool" "example.com" "f_out.txt"
          "exec1").res).results.length)) := by
  decide

/-- Claim C5 counterexample: a run that times out after the tool wrote its
declared output file leaves that file behind — `processResults`, the only
place that unlinks it, is never reached on the timeout path. -/
theorem c5_counterexample :
    (ToolExecutor.executeSingleTool envTimeoutLeft "dig" "example.com" "dig_out.txt"
        "exec1").fileAfter = some "partial results" ∧
      (ToolExecutor.executeSingleTool envTimeoutLeft "dig" "example.com" "dig_out.txt"
        "exec1").fileAfter ≠ none := by
  decide

/-- Claim C6 counterexample: on a clean exit with an existing but empty
output file, `runTool` returns the empty file contents, not the captured
stdout `"hello stdout"` that the claim requires for this input. -/
theorem c6_counterexample :
    (ToolExecutor.runTool envEmptyFile "example.com" "dig_out.txt" "exec1"
        (ToolExecutor.specOf "dig")).result =
        Except.ok { code := 0, signal := none, stdout := "hello stdout", stderr := "",
                    output := "", outputFile := "dig_out.txt" } ∧
      ("" : String) ≠ "hello stdout" := by
  decide

/-- Claim C7 counterexample: on Scenario B's raw output the pipeline does
not produce the claimed two-element list with count 2. -/
theorem c7_counterexample :
    ¬ ((ResultProcessor.processResults oracleNone "subfinder" (some scenarioBRaw) "example.com"
          {}).results =
          [JsVal.str "mail.example.com", JsVal.str "www.example.com"] ∧
        (ResultProcessor.processResults oracleNone "subfinder" (some scenarioBRaw) "example.com"
          {}).count = 2) := by
  decide

/-- Claim C7 (amended): Scenario B's raw output yields the three entries
`www.example.com`, `mail.example.com`, `invalid..example.com` in
length-then-lexicographic order with count 3: the comment line is excluded,
but the double-dot entry satisfies the domain regex (which allows
consecutive dots) and is kept, and the shorter `www` entry precedes
`mail`. -/
theorem c7_scenario_b_actual :
    (ResultProcessor.processResults oracleNone "subfinder" (some scenarioBRaw) "example.com"
        {}).results =
        [JsVal.str "www.example.com", JsVal.str "mail.example.com",
          JsVal.str "invalid..example.com"] ∧
      (ResultProcessor.processResults oracleNone "subfinder" (some scenarioBRaw) "example.com"
        {}).count = 3 := by
  decide

theorem flatListMap_chunk {β : Type} (g : String → β) (bs : Nat) (hbs : 0 < bs) :
    ∀ (fuel : Nat) (l : List String), l.length ≤ fuel →
      ToolExecutor.flatListMap (fun batch => batch.map g)
          (ToolExecutor.chunkToolsAux bs fuel l) =
        l.map g := by
  intro fuel
  induction fuel with
  | zero =>
    intro l hl
    have hnil : l = [] := List.eq_nil_of_length_eq_zero (Nat.le_zero.mp hl)
    subst hnil
    rfl
  | succ n ih =>
    intro l hl
    cases l with
    | nil => rfl
    | cons x xs =>
      simp only [ToolExecutor.chunkToolsAux, ToolExecutor.flatListMap]
      rw [ih ((x :: xs).drop bs)
        (by simp only [List.length_drop, List.length_cons] at hl ⊢; omega)]
      rw [← List.map_append, List.take_append_drop]

theorem executeMultipleTools_eq_map (w : ToolExecutor.WorldEnv) (maxConcurrent : Nat)
    (tools : List String) (domain : String) (h : 0 < maxConcurrent) :
    ToolExecutor.executeMultipleTools w maxConcurrent tools domain =
      tools.map (fun tool =>
        (ToolExecutor.executeSingleTool (w.runEnv tool) tool domain (w.outFile tool)
          (w.execId tool)).res) := by
  unfold ToolExecutor.executeMultipleTools ToolExecutor.createConcurrentBatches
  cases tools with
  | nil => rfl
  | cons x xs =>
    exact flatListMap_chunk _ _ (lt_min h (Nat.succ_pos _)) _ _ (le_refl _)

theorem executeSingleTool_tool (env : ToolExecutor.RunEnv)
    (tool domain outFile executionId : String) :
    ((ToolExecutor.executeSingleTool env tool domain outFile executionId).res).tool = tool := by
  cases htc : ToolExecutor.toolConfigs tool with
  | none => simp [ToolExecutor.executeSingleTool, htc, ToolExecutor.failedToolResult]
  | some cfg =>
    cases hv : ToolExecutor.validateInputs tool domain with
    | some msg => simp [ToolExecutor.executeSingleTool, htc, hv, ToolExecutor.failedToolResult]
    | none =>
      cases hr : (ToolExecutor.runTool env domain outFile executionId cfg).result with
      | error msg =>
        simp [ToolExecutor.executeSingleTool, htc, hv, hr, ToolExecutor.failedToolResult]
      | ok closeRes => simp [ToolExecutor.executeSingleTool, htc, hv, hr]

/-- Claim C2: for every call (non-empty tool list, positive concurrency
limit), the result list of `executeTools` has exactly one entry per
requested tool, and the entry at every index carries that index's tool
name — batching and completion order cannot reorder it. -/
theorem c2_result_order (w : ToolExecutor.WorldEnv) (maxConcurrent : Nat)
    (tools : List String) (domain : String) (hmc : 0 < maxConcurrent) (hne : tools ≠ []) :
    (ToolExecutor.executeTools w maxConcurrent tools domain).results.length = tools.length ∧
    ∀ i : Nat,
      ((ToolExecutor.executeTools w maxConcurrent tools domain).results.get? i).map
          ToolExecutor.ToolResult.tool =
        tools.get? i := by
  have hrs : (ToolExecutor.executeTools w maxConcurrent tools domain).results =
      tools.map (fun tool =>
        (ToolExecutor.executeSingleTool (w.runEnv tool) tool domain (w.outFile tool)
          (w.execId tool)).res) :=
    executeMultipleTools_eq_map w maxConcurrent tools domain hmc
  refine ⟨?_, ?_⟩
  · rw [hrs, List.length_map]
  · intro i
    rw [hrs, List.get?_map]
    cases tools.get? i with
    | none => rfl
    | some t => simp [executeSingleTool_tool]

theorem c2_witness :
    (ToolExecutor.executeTools wDefault 2 ["dig", "whois", "nslookup"]
        "example.com").results.length = 3 ∧
    ((ToolExecutor.executeTools wDefault 2 ["dig", "whois", "nslookup"]
        "example.com").results.get? 2).map ToolExecutor.ToolResult.tool = some "nslookup" := by
  have h := c2_result_order wDefault 2 ["dig", "whois", "nslookup"] "example.com"
    (by decide) (by decide)
  refine ⟨h.1, ?_⟩
  rw [h.2 2]
  rfl

/-- Claim C3: the coordinator always reports `success = true` (its `catch`
branch requires `executeMultipleTools` to throw, which cannot happen for a
list of tool names), and the entry at every index is exactly that tool's
own `executeSingleTool` outcome — a sibling's failure cannot change it, and
a batch in which every tool fails still yields `success = true`. -/
theorem c3_failure_isolation (w : ToolExecutor.WorldEnv) (maxConcurrent : Nat)
    (tools : List String) (domain : String) (hmc : 0 < maxConcurrent) :
    (ToolExecutor.executeTools w maxConcurrent tools domain).success = true ∧
    ∀ i : Nat,
      (ToolExecutor.executeTools w maxConcurrent tools domain).results.get? i =
        (tools.get? i).map (fun tool =>
          (ToolExecutor.executeSingleTool (w.runEnv tool) tool domain (w.outFile tool)
            (w.execId tool)).res) := by
  refine ⟨rfl, ?_⟩
  intro i
  have hrs := executeMultipleTools_eq_map w maxConcurrent tools domain hmc
  show (ToolExecutor.executeMultipleTools w maxConcurrent tools domain).get? i = _
  rw [hrs, List.get?_map]

theorem c3_witness :
    (ToolExecutor.executeTools wSpawnFail 5 ["dig", "whois"] "example.com").success = true ∧
    (ToolExecutor.executeTools wSpawnFail 5 ["dig", "whois"] "example.com").results.get? 0 =
      some (ToolExecutor.failedToolResult "dig" "example.com" "spawn ENOENT") ∧
    ∀ r ∈ (ToolExecutor.executeTools wSpawnFail 5 ["dig", "whois"] "example.com").results,
      r.success = false := by
  have h := c3_failure_isolation wSpawnFail 5 ["dig", "whois"] "example.com" (by decide)
  refine ⟨h.1, ?_, ?_⟩
  · rw [h.2 0]
    decide
  · decide

theorem te_processResults_count (tool output domain : String) :
    (ToolExecutor.processResults tool output domain).1.count =
      (ToolExecutor.processResults tool output domain).1.results.length := by
  unfold ToolExecutor.processResults
  split <;> rfl

theorem rp_processResults_count (o : JsOracles) (tool : String) (raw : Option String)
    (domain : String) (opts : ResultProcessor.ProcOptions) :
    (ResultProcessor.processResults o tool raw domain opts).count =
      (ResultProcessor.processResults o tool raw domain opts).results.length := by
  cases raw with
  | none => rfl
  | some s =>
    by_cases hse : s = "" <;>
      simp [ResultProcessor.processResults, ResultProcessor.createEmptyResult, hse]

theorem executeSingleTool_count_spec (env : ToolExecutor.RunEnv)
    (tool domain outFile executionId : String) :
    ((ToolExecutor.executeSingleTool env tool domain outFile executionId).res).count =
      (if ((ToolExecutor.executeSingleTool env tool domain outFile executionId).res).success
        then some (((ToolExecutor.executeSingleTool env tool domain outFile
          executionId).res).results.length)
        else none) := by
  cases htc : ToolExecutor.toolConfigs tool with
  | none => simp [ToolExecutor.executeSingleTool, htc, ToolExecutor.failedToolResult]
  | some cfg =>
    cases hv : ToolExecutor.validateInputs tool domain with
    | some msg => simp [ToolExecutor.executeSingleTool, htc, hv, ToolExecutor.failedToolResult]
    | none =>
      cases hr : (ToolExecutor.runTool env domain outFile executionId cfg).result with
      | error msg =>
        simp [ToolExecutor.executeSingleTool, htc, hv, hr, ToolExecutor.failedToolResult]
      | ok closeRes =>
        simp [ToolExecutor.executeSingleTool, htc, hv, hr, te_processResults_count]

/-- Claim C4 (amended): `count` equals the result-list length on both paths
of the executor's `processResults`, on both paths of the result processor's
`processResults`, and on the success path of `executeSingleTool`; the
per-tool failure path of `executeSingleTool` instead returns a result with
no `count` field at all. -/
theorem c4_count_field :
    (∀ tool output domain : String,
      (ToolExecutor.processResults tool output domain).1.count =
        (ToolExecutor.processResults tool output domain).1.results.length) ∧
    (∀ (o : JsOracles) (tool : String) (raw : Option String) (domain : String)
        (opts : ResultProcessor.ProcOptions),
      (ResultProcessor.processResults o tool raw domain opts).count =
        (ResultProcessor.processResults o tool raw domain opts).results.length) ∧
    (∀ (env : ToolExecutor.RunEnv) (tool domain outFile executionId : String),
      ((ToolExecutor.executeSingleTool env tool domain outFile executionId).res).success =
          true →
        ((ToolExecutor.executeSingleTool env tool domain outFile executionId).res).count =
          some (((ToolExecutor.executeSingleTool env tool domain outFile
            executionId).res).results.length)) ∧
    (∀ (env : ToolExecutor.RunEnv) (tool domain outFile executionId : String),
      ((ToolExecutor.executeSingleTool env tool domain outFile executionId).res).success =
          false →
        ((ToolExecutor.executeSingleTool env tool domain outFile executionId).res).count =
          none) := by
  refine ⟨te_processResults_count, rp_processResults_count, ?_, ?_⟩
  · intro env tool domain outFile executionId h
    rw [executeSingleTool_count_spec, if_pos h]
  · intro env tool domain outFile executionId h
    rw [executeSingleTool_count_spec, if_neg]
    simp [h]

theorem c4_witness :
    ((ToolExecutor.executeSingleTool envDefault "dig" "example.com" "dig_out.txt"
        "exec1").res).count =
      some (((ToolExecutor.executeSingleTool envDefault "dig" "example.com" "dig_out.txt"
        "exec1").res).results.length) :=
  c4_count_field.2.2.1 envDefault "dig" "example.com" "dig_out.txt" "exec1" (by decide)

/-- Claim C5 (amended): whenever `executeSingleTool` succeeds — that is,
whenever `runTool` resolved (the process emitted `close`, with any exit
code) — the declared output file is deleted by `processResults`; on the
timeout and spawn-failure paths `processResults` is never reached and a
file the tool created is left behind. -/
theorem c5_cleanup_on_success (env : ToolExecutor.RunEnv)
    (tool domain outFile executionId : String)
    (h : ((ToolExecutor.executeSingleTool env tool domain outFile executionId).res).success =
      true) :
    (ToolExecutor.executeSingleTool env tool domain outFile executionId).fileAfter = none := by
  cases htc : ToolExecutor.toolConfigs tool with
  | none => simp [ToolExecutor.executeSingleTool, htc, ToolExecutor.failedToolResult] at h
  | some cfg =>
    cases hv : ToolExecutor.validateInputs tool domain with
    | some msg =>
      simp [ToolExecutor.executeSingleTool, htc, hv, ToolExecutor.failedToolResult] at h
    | none =>
      cases hr : (ToolExecutor.runTool env domain outFile executionId cfg).result with
      | error msg =>
        simp [ToolExecutor.executeSingleTool, htc, hv, hr, ToolExecutor.failedToolResult] at h
      | ok closeRes =>
        simp [ToolExecutor.executeSingleTool, htc, hv, hr, ToolExecutor.processResults]

theorem c5_witness :
    (ToolExecutor.executeSingleTool envDefault "dig" "example.com" "dig_out.txt"
      "exec1").fileAfter = none :=
  c5_cleanup_on_success envDefault "dig" "example.com" "dig_out.txt" "exec1" (by decide)

/-- Claim C6 (amended): when the process spawns and exits before its
timeout, `runTool` resolves with the output file's contents whenever the
file exists — even when it is empty — and with the captured stdout only
when the file does not exist (the `fs.readFile` fails). -/
theorem c6_output_preference (env : ToolExecutor.RunEnv) (spec : ToolExecutor.ToolSpec)
    (domain outFile executionId : String) (h1 : (env 0).spawnFails = false)
    (h2 : (env 0).timesOut = false) :
    (ToolExecutor.runTool env domain outFile executionId spec).result =
      Except.ok { code := (env 0).exitCode, signal := (env 0).exitSignal,
                  stdout := (env 0).stdout, stderr := (env 0).stderr,
                  output := (env 0).fileContents.getD (env 0).stdout,
                  outputFile := outFile } := by
  unfold ToolExecutor.runTool
  cases hf : spec.fallback <;>
    simp [h1, h2, ToolExecutor.attemptOutcome]

theorem c6_witness :
    (ToolExecutor.runTool envDefault "example.com" "dig_out.txt" "exec1"
        (ToolExecutor.specOf "dig")).result =
      Except.ok { code := 0, signal := none, stdout := "", stderr := "", output := "",
                  outputFile := "dig_out.txt" } :=
  c6_output_preference envDefault (ToolExecutor.specOf "dig") "example.com" "dig_out.txt"
    "exec1" rfl rfl

theorem validateResults_json_eq_text (rs : List JsVal) (d : String) :
    ResultProcessor.validateResults rs OutputType.json d =
      ResultProcessor.validateResults rs OutputType.text d := rfl

theorem sortResults_json_eq_text (rs : List JsVal) :
    ResultProcessor.sortResults rs OutputType.json =
      ResultProcessor.sortResults rs OutputType.text := rfl

/-- Claim C8: the result processor's `processResults` is total on every
input — missing/non-string raw output yields the empty zero-count result,
`count` always equals the length of the result list (the only throwing
operation, `JSON.parse`, is caught inside `parseJsonOutput`) — and when the
output type is `json` and `JSON.parse` fails, the pipeline produces exactly
what line-based `text` parsing produces. -/
theorem c8_pipeline_total (o : JsOracles) (tool : String) (raw : Option String)
    (domain : String) (opts : ResultProcessor.ProcOptions) :
    ((ResultProcessor.processResults o tool raw domain opts).count =
      (ResultProcessor.processResults o tool raw domain opts).results.length) ∧
    (raw = none → (ResultProcessor.processResults o tool raw domain opts).results = []) ∧
    (∀ s, raw = some s → opts.outputType = OutputType.json → o.jsonParse s = none →
      (ResultProcessor.processResults o tool raw domain opts).results =
        (ResultProcessor.processResults o tool raw domain
          { opts with outputType := OutputType.text }).results) := by
  refine ⟨rp_processResults_count o tool raw domain opts, ?_, ?_⟩
  · intro h
    subst h
    rfl
  · intro s hs hot hjp
    subst hs
    unfold ResultProcessor.processResults
    by_cases hse : s = ""
    · simp [hse]
    · simp only [if_neg hse, hot]
      simp only [ResultProcessor.parseJsonOutput, hjp, if_neg hse]
      simp only [validateResults_json_eq_text, sortResults_json_eq_text]

theorem c8_witness :
    (ResultProcessor.processResults oracleNone "curl" (some "alpha\nbeta") "example.com"
        { outputType := OutputType.json }).results =
      (ResultProcessor.processResults oracleNone "curl" (some "alpha\nbeta") "example.com"
        { outputType := OutputType.text }).results :=
  (c8_pipeline_total oracleNone "curl" (some "alpha\nbeta") "example.com"
    { outputType := OutputType.json }).2.2 "alpha\nbeta" rfl rfl rfl

theorem attemptOutcome_attempts (b : ToolExecutor.AttemptBehavior)
    (spec : ToolExecutor.ToolSpec) (args : List String) (outFile : String) :
    (ToolExecutor.attemptOutcome b spec args outFile).attempts = [(spec.command, args)] := by
  unfold ToolExecutor.attemptOutcome
  split
  · rfl
  · split <;> rfl

/-- Claim C9: when the primary spawn fails, `runTool` makes at most one
fallback hop.  With no fallback configured it rejects with the primary's
spawn error after a single attempt; with a fallback configured it retries
exactly once, using the spread-merged command and argument vector, and if
that fallback spawn also fails the call rejects with the fallback's spawn
error — no third attempt is made even though the merged spec still carries
a `fallback` field, because `context.fallbackAttempted` is set. -/
theorem c9_single_fallback_hop (env : ToolExecutor.RunEnv) (spec : ToolExecutor.ToolSpec)
    (domain outFile executionId : String) (hfail : (env 0).spawnFails = true) :
    ((ToolExecutor.runTool env domain outFile executionId spec).attempts.length ≤ 2) ∧
    (spec.fallback = none →
      (ToolExecutor.runTool env domain outFile executionId spec).result =
        Except.error (env 0).spawnErrorMsg) ∧
    (∀ fb, spec.fallback = some fb →
      ((ToolExecutor.runTool env domain outFile executionId spec).attempts =
        [(spec.command, ToolExecutor.processCommandArgs spec.args domain outFile executionId),
          ((ToolExecutor.mergeFallback spec fb).command,
            ToolExecutor.processCommandArgs (ToolExecutor.mergeFallback spec fb).args domain
              outFile executionId)]) ∧
      ((env 1).spawnFails = true →
        (ToolExecutor.runTool env domain outFile executionId spec).result =
          Except.error (env 1).spawnErrorMsg)) := by
  cases hf : spec.fallback with
  | none =>
    refine ⟨?_, ?_, ?_⟩
    · unfold ToolExecutor.runTool
      simp [hfail, hf, attemptOutcome_attempts]
    · intro _
      unfold ToolExecutor.runTool
      simp [hfail, hf, ToolExecutor.attemptOutcome]
    · intro fb hfb
      simp [hf] at hfb
  | some fb0 =>
    refine ⟨?_, ?_, ?_⟩
    · unfold ToolExecutor.runTool
      simp [hfail, hf, ToolExecutor.runToolFallbackAttempt, attemptOutcome_attempts]
    · intro h0
      exact Option.noConfusion h0
    · intro fb hfb
      injection hfb with hfb
      subst hfb
      constructor
      · unfold ToolExecutor.runTool
        simp [hfail, hf, ToolExecutor.runToolFallbackAttempt, attemptOutcome_attempts]
      · intro h1
        unfold ToolExecutor.runTool
        simp [hfail, hf, ToolExecutor.runToolFallbackAttempt, ToolExecutor.attemptOutcome, h1]

theorem c9_witness :
    (ToolExecutor.runTool envBothSpawnFail "example.com" "ns_out.txt" "exec1"
        (ToolExecutor.specOf "nslookup")).result = Except.error "fallback ENOENT" ∧
    (ToolExecutor.runTool envBothSpawnFail "example.com" "ns_out.txt" "exec1"
        (ToolExecutor.specOf "nslookup")).attempts.length = 2 := by
  have h := c9_single_fallback_hop envBothSpawnFail (ToolExecutor.specOf "nslookup")
    "example.com" "ns_out.txt" "exec1" (by decide)
  obtain ⟨fb, hfb⟩ : ∃ fb, (ToolExecutor.specOf "nslookup").fallback = some fb := ⟨_, rfl⟩
  have h3 := h.2.2 fb hfb
  refine ⟨h3.2 (by decide), ?_⟩
  rw [h3.1]
  rfl
